import Mathlib

/-!
Verification of the session/message-lifecycle core of a Telegram
text-to-image bot (src/app.py) against its natural-language spec.

Text is modelled as `List Char` (a Python `str`); `Option` models a
possibly-absent value (Python `None`); exceptions raised by fallible
Python code are modelled by the error channel of `Except`.  External
collaborators (the Telegram API, the OpenAI endpoint, uuid generation,
temp-file IO) are modelled by explicit environment records, and the
outward-visible behaviour of a handler is a trace of events.
-/

/-- Python truthiness of an optional string: `None` and `""` are falsy. -/
def optStrTruthy : Option (List Char) → Bool
  | none => false
  | some s => !s.isEmpty

/-- Python truthiness of an optional integer: `None` and `0` are falsy. -/
def optNatTruthy : Option Nat → Bool
  | none => false
  | some n => n != 0

/-- Whitespace characters removed by Python str.strip (ASCII whitespace). -/
def pyIsSpace (c : Char) : Bool :=
  c = ' ' || c = '\t' || c = '\n' || c = '\x0d' || c = '\x0b' || c = '\x0c'

/-- Python str.strip(): drop leading and trailing whitespace. -/
def pyStrip (s : List Char) : List Char :=
  ((s.dropWhile pyIsSpace).reverse.dropWhile pyIsSpace).reverse

/-- Python s.split(sep, 1): the part before the first separator, and the
part after it when the separator occurs (`none` when it does not). -/
def pySplitOnce (sep : Char) : List Char → List Char × Option (List Char)
  | [] => ([], none)
  | c :: cs =>
    if c = sep then ([], some cs)
    else
      let r := pySplitOnce sep cs
      (c :: r.1, r.2)

/-- app.py line 43: detect_language.  Bangla iff some code point lies in
the Bangla Unicode block U+0980 to U+09FF; the argument is optional,
matching the `text or ""` guard. -/
def isBanglaChar (c : Char) : Bool :=
  0x0980 ≤ c.toNat && c.toNat ≤ 0x09FF

def detect_language (text : Option (List Char)) : List Char :=
  if (text.getD []).any isBanglaChar then "bangla".data else "english".data

/-- app.py line 57: variation_suffix, with the generated uuid4 value made
an explicit argument. -/
def variation_suffix (token : List Char) : List Char :=
  "\n\n# variation:".data ++ token

/-- The prompt string actually sent upstream: user prompt plus the
variation suffix (app.py line 69, prompt + variation_suffix()). -/
def upstream_prompt (prompt token : List Char) : List Char :=
  prompt ++ variation_suffix token

/-- One element of the provider response data list, with the optional
url and b64_json attributes. -/
structure ImgItem where
  url : Option (List Char)
  b64_json : Option (List Char)
deriving DecidableEq

/-- The provider response: the data attribute may be absent or a list. -/
structure ImagesResponse where
  data : Option (List ImgItem)
deriving DecidableEq

/-- Behaviour of the remote images.generate call for a given prompt:
either it raises an exception with a message, or it returns a response. -/
inductive ProviderOutcome where
  | raises (msg : List Char)
  | returns (resp : ImagesResponse)
deriving DecidableEq

/-- Environment of one generate_image_url call: the uuid4 token drawn,
the provider behaviour as a function of the prompt sent, and the
outcome of the base64 decode-and-save-to-temp-file path (its error case
models an exception raised while decoding or writing). -/
structure GenEnv where
  token : List Char
  provider : List Char → ProviderOutcome
  b64Save : Except (List Char) (List Char)

/-- A displayable image reference: a remote URL or a local file path. -/
inductive ImageRef where
  | url (u : List Char)
  | localFile (path : List Char)
deriving DecidableEq

/-- app.py lines 61 to 89: generate_image_url.  The error channel of the
result models a raised RuntimeError carrying the given message; the
outer except clause on line 88 turns every exception raised inside the
body, including the IndexError from data[0] on an empty list and the
TypeError from subscripting None, into RuntimeError(str(e)). -/
def generate_image_url (prompt : List Char) (env : GenEnv) :
    Except (List Char) ImageRef :=
  match env.provider (upstream_prompt prompt env.token) with
  | .raises m => .error m
  | .returns resp =>
    match resp.data with
    | none => .error "NoneType object is not subscriptable".data
    | some [] => .error "list index out of range".data
    | some (it :: _) =>
      if optStrTruthy it.url then .ok (.url (it.url.getD []))
      else if optStrTruthy it.b64_json then
        match env.b64Save with
        | .ok path => .ok (.localFile path)
        | .error m => .error m
      else .error "OpenAI did not return URL or b64 image data.".data

/-- The regenerate callback payload built on app.py lines 139 to 141:
the f-string "regen|" followed by the script, with the action kind
generalised. -/
def encodePayload (kind promptText : List Char) : List Char :=
  kind ++ '|' :: promptText

/-- app.py lines 176 to 177: data = payload.split("|", 1); the action
kind is data[0] and the recovered script is data[1] when the split
produced two parts, the empty string otherwise. -/
def decodePayload (payload : List Char) : List Char × List Char :=
  match pySplitOnce '|' payload with
  | (before, some after) => (before, after)
  | (before, none) => (before, [])

/-- One user session record (the per-user dict in UserSessions). -/
structure Session where
  chat_id : Option Nat
  last_msg_id : Option Nat
deriving DecidableEq

def Session.empty : Session := ⟨none, none⟩

/-- The UserSessions store: user id to session. -/
def Store := Nat → Option Session

/-- UserSessions[uid] = UserSessions.get(uid, {}) then ["chat_id"] = c. -/
def set_chat (s : Store) (uid chat : Nat) : Store :=
  fun u => if u = uid then some { (s uid).getD Session.empty with chat_id := some chat }
           else s u

/-- UserSessions[uid]["last_msg_id"] = m. -/
def set_last_msg (s : Store) (uid m : Nat) : Store :=
  fun u => if u = uid then some { (s uid).getD Session.empty with last_msg_id := some m }
           else s u

/-- Outward-visible events of one handler invocation. -/
inductive Event where
  | deleteMessage (chat mid : Nat)
  | generateCall (prompt : List Char)
  | sendPhoto (chat : Nat) (ref : ImageRef) (callbacks : List (List Char))
  | sendText (chat : Nat) (text : List Char)
  | editMarkup (callbacks : List (List Char)) (downloadUrl : List Char)
  | answerCallback
  | logDebug (what : List Char)
deriving DecidableEq

/-- app.py lines 47 to 55: delete_last_message_if_any.  Reads the session,
and when both the tracked message id and chat id are truthy issues one
delete request; a delete failure is only logged.  The store is returned
so the function has the same stateful signature as its callers. -/
def delete_last_message_if_any (store : Store) (uid : Nat) (deleteOk : Bool) :
    Store × List Event :=
  let data := (store uid).getD Session.empty
  if optNatTruthy data.last_msg_id && optNatTruthy data.chat_id then
    let ev := Event.deleteMessage (data.chat_id.getD 0) (data.last_msg_id.getD 0)
    if deleteOk then (store, [ev])
    else (store, [ev, Event.logDebug "Could not delete previous message".data])
  else (store, [])

/-- The two regenerate buttons built on app.py lines 138 to 141 and 185
to 188, listed by their callback payloads (ENTIRE and GO both carry
regen|script). -/
def regen_keyboard (script : List Char) : List (List Char) :=
  [encodePayload "regen".data script, encodePayload "regen".data script]

/-- app.py lines 91 to 111: add_download_button.  The file-url lookup
either yields a URL, after which the markup is edited to add the
download link, or raises, which is only logged. -/
def add_download_button (script : List Char)
    (fileUrl : Except (List Char) (List Char)) : List Event :=
  match fileUrl with
  | .ok u => [Event.editMarkup (regen_keyboard script) u]
  | .error m => [Event.logDebug ("Failed to attach download button: ".data ++ m)]

/-- The localized error text of app.py lines 159 to 162 and 202 to 205. -/
def error_message (lang reason : List Char) : List Char :=
  if lang = "bangla".data then "❌ একটি ত্রুটি ঘটেছে!\nকারণ: ".data ++ reason
  else "❌ An error occurred!\nReason: ".data ++ reason

/-- Environment of one handler invocation: the generator environment,
whether the platform delete call succeeds, the ids Telegram assigns to
the sent photo or text message, and the outcome of the file-url lookup
used for the download button. -/
structure FlowEnv where
  gen : GenEnv
  deleteOk : Bool
  photoMsgId : Nat
  textMsgId : Nat
  fileUrl : Except (List Char) (List Char)

/-- app.py lines 124 to 164: handle_script.  The incoming message text is
optional (the `update.message.text or ""` guard) and is stripped; the
chat id is recorded, the previous output retired, and the generator
invoked; on success a photo with the regen keyboard is sent, its id
tracked, and the download button attached; on failure a localized error
text embedding the reason is sent and its id tracked. -/
def handle_script (store : Store) (uid chatId : Nat)
    (msgText : Option (List Char)) (env : FlowEnv) : Store × List Event :=
  let script := pyStrip (msgText.getD [])
  let s1 := set_chat store uid chatId
  let r := delete_last_message_if_any s1 uid env.deleteOk
  match generate_image_url script env.gen with
  | .ok ref =>
    let s3 := set_last_msg r.1 uid env.photoMsgId
    (s3, r.2 ++ [Event.generateCall script,
                 Event.sendPhoto chatId ref (regen_keyboard script)]
             ++ add_download_button script env.fileUrl)
  | .error reason =>
    let emsg := error_message (detect_language (some script)) reason
    let s3 := set_last_msg r.1 uid env.textMsgId
    (s3, r.2 ++ [Event.generateCall script, Event.sendText chatId emsg])

/-- app.py lines 166 to 207: on_regen_button.  The callback is answered,
the chat id recorded, the script recovered from the payload by
splitting on the first separator, the previous output retired, and then
the same generate-and-send path as handle_script runs on the recovered
script. -/
def on_regen_button (store : Store) (uid chatId : Nat)
    (payload : Option (List Char)) (env : FlowEnv) : Store × List Event :=
  let script := (decodePayload (payload.getD [])).2
  let s1 := set_chat store uid chatId
  let r := delete_last_message_if_any s1 uid env.deleteOk
  match generate_image_url script env.gen with
  | .ok ref =>
    let s3 := set_last_msg r.1 uid env.photoMsgId
    (s3, Event.answerCallback :: r.2
           ++ [Event.generateCall script,
               Event.sendPhoto chatId ref (regen_keyboard script)]
           ++ add_download_button script env.fileUrl)
  | .error reason =>
    let emsg := error_message (detect_language (some script)) reason
    let s3 := set_last_msg r.1 uid env.textMsgId
    (s3, Event.answerCallback :: r.2
           ++ [Event.generateCall script, Event.sendText chatId emsg])

/-- Event classifiers used by the theorems below. -/
def isDeleteEv : Event → Bool
  | .deleteMessage _ _ => true
  | _ => false

def isSendEv : Event → Bool
  | .sendPhoto _ _ _ => true
  | .sendText _ _ => true
  | _ => false

def isGenEv : Event → Bool
  | .generateCall _ => true
  | _ => false

/-! Helper lemmas -/

theorem pySplitOnce_append (sep : Char) (kind rest : List Char) (h : sep ∉ kind) :
    pySplitOnce sep (kind ++ sep :: rest) = (kind, some rest) := by
  induction kind with
  | nil => simp [pySplitOnce]
  | cons c cs ih =>
    rw [List.mem_cons, not_or] at h
    obtain ⟨h1, h2⟩ := h
    have hc : ¬ c = sep := fun he => h1 he.symm
    simp [pySplitOnce, hc, ih h2]

theorem retire_filter_send (store : Store) (uid : Nat) (ok : Bool) :
    (delete_last_message_if_any store uid ok).2.filter isSendEv = [] := by
  simp only [delete_last_message_if_any]
  split
  · split <;> simp [isSendEv]
  · rfl

theorem retire_filter_gen (store : Store) (uid : Nat) (ok : Bool) :
    (delete_last_message_if_any store uid ok).2.filter isGenEv = [] := by
  simp only [delete_last_message_if_any]
  split
  · split <;> simp [isGenEv]
  · rfl

theorem add_download_filter_send (script : List Char)
    (u : Except (List Char) (List Char)) :
    (add_download_button script u).filter isSendEv = [] := by
  unfold add_download_button
  split <;> simp [isSendEv]

theorem add_download_filter_gen (script : List Char)
    (u : Except (List Char) (List Char)) :
    (add_download_button script u).filter isGenEv = [] := by
  unfold add_download_button
  split <;> simp [isGenEv]

theorem add_download_filter_delsend (script : List Char)
    (u : Except (List Char) (List Char)) :
    (add_download_button script u).filter (fun ev => isDeleteEv ev || isSendEv ev) = [] := by
  unfold add_download_button
  split <;> simp [isSendEv, isDeleteEv]

/-! Claim theorems -/

/-- C5: detect_language is a pure total function returning bangla exactly
when some code point of the input lies in the Bangla Unicode block, and
english for every other input, including the empty and absent string. -/
theorem detect_language_correct :
    ∀ t : Option (List Char),
      (detect_language t = "bangla".data ↔ ∃ c ∈ t.getD [], isBanglaChar c)
      ∧ (detect_language t = "english".data ↔ ¬ ∃ c ∈ t.getD [], isBanglaChar c) := by
  intro t
  by_cases h : (t.getD []).any isBanglaChar = true
  · rw [detect_language, if_pos h]
    rw [List.any_eq_true] at h
    exact ⟨⟨fun _ => h, fun _ => rfl⟩,
           ⟨fun he => absurd he (by decide), fun hn => absurd h hn⟩⟩
  · rw [detect_language, if_neg h]
    constructor
    · exact ⟨fun he => absurd he (by decide),
             fun hex => absurd (List.any_eq_true.mpr hex) h⟩
    · exact ⟨fun _ hex => h (List.any_eq_true.mpr hex), fun _ => rfl⟩

/-- C9: delete_last_message_if_any never modifies the session store,
whether the delete succeeds, fails, or is skipped. -/
theorem retire_preserves_store (store : Store) (uid : Nat) (deleteOk : Bool) :
    (delete_last_message_if_any store uid deleteOk).1 = store := by
  simp only [delete_last_message_if_any]
  split
  · split <;> rfl
  · rfl

/-- C8: the generator appends a variance token to the prompt; when two
calls draw different tokens the two upstream prompt strings differ,
while the user prompt stays a common prefix of both. -/
theorem variance_token_distinct (P t1 t2 : List Char) (h : t1 ≠ t2) :
    upstream_prompt P t1 ≠ upstream_prompt P t2
    ∧ P <+: upstream_prompt P t1 ∧ P <+: upstream_prompt P t2 := by
  refine ⟨fun he => h ?_, ⟨variation_suffix t1, rfl⟩, ⟨variation_suffix t2, rfl⟩⟩
  simp only [upstream_prompt, variation_suffix] at he
  exact List.append_cancel_left (List.append_cancel_left he)

theorem variance_token_distinct_witness :
    "0".data ≠ "1".data
    ∧ (upstream_prompt "cat".data "0".data ≠ upstream_prompt "cat".data "1".data
       ∧ "cat".data <+: upstream_prompt "cat".data "0".data
       ∧ "cat".data <+: upstream_prompt "cat".data "1".data) :=
  ⟨by decide, variance_token_distinct "cat".data "0".data "1".data (by decide)⟩

/-- C1: a transport or endpoint error raised by the remote call is caught
inside generate_image_url and returned through the failure channel
carrying the upstream message text. -/
theorem generate_catches_errors (p : List Char) (env : GenEnv) (m : List Char)
    (h : env.provider (upstream_prompt p env.token) = .raises m) :
    generate_image_url p env = .error m := by
  unfold generate_image_url
  rw [h]

theorem generate_catches_errors_witness :
    (GenEnv.mk "t".data (fun _ => .raises "rate limit exceeded".data)
        (Except.error [])).provider
        (upstream_prompt "hi".data "t".data) = .raises "rate limit exceeded".data
    ∧ generate_image_url "hi".data
        (GenEnv.mk "t".data (fun _ => .raises "rate limit exceeded".data)
          (Except.error []))
      = .error "rate limit exceeded".data :=
  ⟨rfl, generate_catches_errors _ _ _ rfl⟩

/-- C10: when the provider response carries neither a truthy url nor
truthy inline b64 data, including a missing or empty data list, the
generator yields a failure, never a success reference or a crash. -/
theorem generate_total_on_degenerate (p : List Char) (env : GenEnv)
    (resp : ImagesResponse)
    (hret : env.provider (upstream_prompt p env.token) = .returns resp)
    (hshape : resp.data = none ∨ resp.data = some [] ∨
      ∃ it rest, resp.data = some (it :: rest)
        ∧ optStrTruthy it.url = false ∧ optStrTruthy it.b64_json = false) :
    ∃ m, generate_image_url p env = .error m := by
  simp only [generate_image_url, hret]
  rcases hshape with h | h | ⟨it, rest, h, hu, hb⟩
  · rw [h]; exact ⟨_, rfl⟩
  · rw [h]; exact ⟨_, rfl⟩
  · rw [h]; simp [hu, hb]

theorem generate_total_on_degenerate_witness :
    (GenEnv.mk "t".data (fun _ => .returns ⟨some []⟩) (Except.error [])).provider
        (upstream_prompt "x".data "t".data) = .returns ⟨some []⟩
    ∧ ∃ m, generate_image_url "x".data
        (GenEnv.mk "t".data (fun _ => .returns ⟨some []⟩) (Except.error []))
        = .error m :=
  ⟨rfl, generate_total_on_degenerate _ _ _ rfl (Or.inr (Or.inl rfl))⟩

/-- C6: round-trip of the regeneration correlator: when neither the
action kind nor the prompt contains the separator, decoding the encoded
payload recovers the pair exactly. -/
theorem decode_encode_roundtrip (kind P : List Char)
    (hk : '|' ∉ kind) (hP : '|' ∉ P) :
    decodePayload (encodePayload kind P) = (kind, P) := by
  unfold decodePayload encodePayload
  rw [pySplitOnce_append '|' kind P hk]

theorem decode_encode_roundtrip_witness :
    ('|' ∉ "regen".data) ∧ ('|' ∉ "a red bicycle".data)
    ∧ decodePayload (encodePayload "regen".data "a red bicycle".data)
        = ("regen".data, "a red bicycle".data) :=
  ⟨by decide, by decide,
   decode_encode_roundtrip "regen".data "a red bicycle".data (by decide) (by decide)⟩

/-- C3 counterexample: for the prompt a|b, which contains the separator,
decoding the encoded payload recovers the whole prompt a|b, not the
claimed truncation to the substring a before the first separator. -/
theorem decode_truncation_cex :
    (decodePayload (encodePayload "regen".data "a|b".data)).2 = "a|b".data
    ∧ ¬ (decodePayload (encodePayload "regen".data "a|b".data)).2 = "a".data := by
  decide

/-- C3 amended: for an action kind free of the separator and a prompt
that contains the separator, decoding the encoded payload recovers the
full prompt unchanged; the split consumes only the separator that ends
the action kind, so nothing is truncated. -/
theorem decode_encode_keeps_full_prompt (kind P : List Char)
    (hk : '|' ∉ kind) (hP : '|' ∈ P) :
    decodePayload (encodePayload kind P) = (kind, P) := by
  unfold decodePayload encodePayload
  rw [pySplitOnce_append '|' kind P hk]

theorem decode_encode_keeps_full_prompt_witness :
    ('|' ∉ "regen".data) ∧ ('|' ∈ "a|b".data)
    ∧ decodePayload (encodePayload "regen".data "a|b".data)
        = ("regen".data, "a|b".data) :=
  ⟨by decide, by decide,
   decode_encode_keeps_full_prompt "regen".data "a|b".data (by decide) (by decide)⟩

/-- Stripping only removes characters at the two ends: the stripped text
occurs inside the original text. -/
theorem pyStrip_occurs_within (l : List Char) : pyStrip l <:+: l := by
  refine ⟨l.takeWhile pyIsSpace,
          ((l.dropWhile pyIsSpace).reverse.takeWhile pyIsSpace).reverse, ?_⟩
  unfold pyStrip
  conv_rhs => rw [← List.takeWhile_append_dropWhile (p := pyIsSpace) (l := l)]
  rw [List.append_assoc]
  congr 1
  have h2 : ((l.dropWhile pyIsSpace).reverse.dropWhile pyIsSpace).reverse
      ++ ((l.dropWhile pyIsSpace).reverse.takeWhile pyIsSpace).reverse
      = ((l.dropWhile pyIsSpace).reverse.takeWhile pyIsSpace
          ++ (l.dropWhile pyIsSpace).reverse.dropWhile pyIsSpace).reverse := by
    rw [List.reverse_append]
  rw [h2, List.takeWhile_append_dropWhile, List.reverse_reverse]

/-- The generator-invocation events of one handle_script run: exactly one,
carrying the stripped message text. -/
theorem handle_script_gen_events (store : Store) (uid chatId : Nat)
    (text : Option (List Char)) (env : FlowEnv) :
    (handle_script store uid chatId text env).2.filter isGenEv
      = [Event.generateCall (pyStrip (text.getD []))] := by
  cases hg : generate_image_url (pyStrip (text.getD [])) env.gen with
  | ok ref =>
    simp only [handle_script, hg, List.filter_append]
    rw [retire_filter_gen, add_download_filter_gen]
    simp [isGenEv]
  | error reason =>
    simp only [handle_script, hg, List.filter_append]
    rw [retire_filter_gen]
    simp [isGenEv]

/-- C4 counterexample: for the message text consisting of hi surrounded
by spaces, the orchestrator invokes the generator with the stripped text
hi, which differs from the raw text the user sent. -/
theorem raw_prompt_cex :
    (handle_script (fun _ => none) 1 7 (some " hi ".data)
        ⟨⟨"t".data, fun _ => ProviderOutcome.raises "err".data, Except.error []⟩,
         true, 3, 4, Except.error []⟩).2.filter isGenEv
      = [Event.generateCall "hi".data]
    ∧ "hi".data ≠ " hi ".data := by
  constructor
  · rw [handle_script_gen_events]
    decide
  · decide

/-- C4 amended: in the new-prompt flow the orchestrator invokes the image
generator exactly once, with the message text stripped of leading and
trailing whitespace and otherwise unchanged (the stripped prompt occurs
contiguously inside the raw text). -/
theorem orchestrator_calls_generator_stripped (store : Store)
    (uid chatId : Nat) (text : Option (List Char)) (env : FlowEnv) :
    (handle_script store uid chatId text env).2.filter isGenEv
      = [Event.generateCall (pyStrip (text.getD []))]
    ∧ pyStrip (text.getD []) <:+: text.getD [] :=
  ⟨handle_script_gen_events store uid chatId text env,
   pyStrip_occurs_within (text.getD [])⟩

/-- Recording the chat destination keeps the tracked last message id. -/
theorem set_chat_at (store : Store) (uid chatId : Nat) :
    set_chat store uid chatId uid
      = some ⟨some chatId, ((store uid).getD Session.empty).last_msg_id⟩ := by
  simp [set_chat]

/-- With a truthy tracked message id and chat id, retiring emits exactly
one delete event for them and nothing user-visible. -/
theorem retire_events_tracked (store : Store) (uid m c : Nat) (ok : Bool)
    (hm : ((store uid).getD Session.empty).last_msg_id = some m) (hm0 : m ≠ 0)
    (hc : ((store uid).getD Session.empty).chat_id = some c) (hc0 : c ≠ 0) :
    (delete_last_message_if_any store uid ok).2.filter
        (fun ev => isDeleteEv ev || isSendEv ev)
      = [Event.deleteMessage c m] := by
  simp only [delete_last_message_if_any, hm, hc]
  have h1 : optNatTruthy (some m) = true := by simp [optNatTruthy, hm0]
  have h2 : optNatTruthy (some c) = true := by simp [optNatTruthy, hc0]
  rw [h1, h2]
  cases ok <;> simp [isDeleteEv, isSendEv]

/-- C2: when a user has a previously tracked message, both the new-prompt
flow and the regenerate flow issue exactly one delete attempt for that
message id, before the single new result message is sent, whatever the
delete outcome and generation outcome are; a failed delete adds nothing
user-visible. -/
theorem retire_once_before_send (store : Store) (uid chatId m : Nat)
    (text payload : Option (List Char)) (env : FlowEnv)
    (hm : ((store uid).getD Session.empty).last_msg_id = some m)
    (hm0 : m ≠ 0) (hc0 : chatId ≠ 0) :
    (∃ e, isSendEv e = true ∧
       (handle_script store uid chatId text env).2.filter
           (fun ev => isDeleteEv ev || isSendEv ev)
         = [Event.deleteMessage chatId m, e])
    ∧ (∃ e, isSendEv e = true ∧
       (on_regen_button store uid chatId payload env).2.filter
           (fun ev => isDeleteEv ev || isSendEv ev)
         = [Event.deleteMessage chatId m, e]) := by
  have hm' : (((set_chat store uid chatId) uid).getD Session.empty).last_msg_id
      = some m := by
    rw [set_chat_at]; simpa using hm
  have hc' : (((set_chat store uid chatId) uid).getD Session.empty).chat_id
      = some chatId := by
    rw [set_chat_at]; simp
  have hret := retire_events_tracked (set_chat store uid chatId) uid m chatId
    env.deleteOk hm' hm0 hc' hc0
  constructor
  · cases hg : generate_image_url (pyStrip (text.getD [])) env.gen with
    | ok ref =>
      refine ⟨Event.sendPhoto chatId ref (regen_keyboard (pyStrip (text.getD []))),
              rfl, ?_⟩
      simp only [handle_script, hg, List.filter_append]
      rw [hret, add_download_filter_delsend]
      simp [isDeleteEv, isSendEv]
    | error reason =>
      refine ⟨Event.sendText chatId
                (error_message (detect_language (some (pyStrip (text.getD [])))) reason),
              rfl, ?_⟩
      simp only [handle_script, hg, List.filter_append]
      rw [hret]
      simp [isDeleteEv, isSendEv]
  · cases hg : generate_image_url ((decodePayload (payload.getD [])).2) env.gen with
    | ok ref =>
      refine ⟨Event.sendPhoto chatId ref
                (regen_keyboard ((decodePayload (payload.getD [])).2)), rfl, ?_⟩
      simp only [on_regen_button, hg, List.filter_cons, List.filter_append]
      rw [hret, add_download_filter_delsend]
      simp [isDeleteEv, isSendEv]
    | error reason =>
      refine ⟨Event.sendText chatId
                (error_message (detect_language
                  (some ((decodePayload (payload.getD [])).2))) reason), rfl, ?_⟩
      simp only [on_regen_button, hg, List.filter_cons, List.filter_append]
      rw [hret]
      simp [isDeleteEv, isSendEv]

theorem retire_once_before_send_witness :
    ((((fun u => if u = 1 then some (Session.mk (some 9) (some 5)) else none) :
          Store) 1).getD Session.empty).last_msg_id = some 5
    ∧ ((5 : Nat) ≠ 0) ∧ ((7 : Nat) ≠ 0)
    ∧ ((∃ e, isSendEv e = true ∧
         (handle_script
             (fun u => if u = 1 then some (Session.mk (some 9) (some 5)) else none)
             1 7 (some "x".data)
             ⟨⟨"t".data, fun _ => ProviderOutcome.raises "boom".data, Except.error []⟩,
              false, 3, 4, Except.error []⟩).2.filter
             (fun ev => isDeleteEv ev || isSendEv ev)
           = [Event.deleteMessage 7 5, e])
      ∧ (∃ e, isSendEv e = true ∧
         (on_regen_button
             (fun u => if u = 1 then some (Session.mk (some 9) (some 5)) else none)
             1 7 (some "regen|x".data)
             ⟨⟨"t".data, fun _ => ProviderOutcome.raises "boom".data, Except.error []⟩,
              false, 3, 4, Except.error []⟩).2.filter
             (fun ev => isDeleteEv ev || isSendEv ev)
           = [Event.deleteMessage 7 5, e])) :=
  ⟨by decide, by decide, by decide,
   retire_once_before_send
     (fun u => if u = 1 then some (Session.mk (some 9) (some 5)) else none)
     1 7 5 (some "x".data) (some "regen|x".data)
     ⟨⟨"t".data, fun _ => ProviderOutcome.raises "boom".data, Except.error []⟩,
      false, 3, 4, Except.error []⟩
     (by decide) (by decide) (by decide)⟩

/-- C7: when generation fails, each flow sends exactly one user-visible
chat message; it is the Bangla template when the triggering prompt is
detected as Bangla and the English template otherwise, it begins with
the failure glyph, and it embeds the upstream reason verbatim as a
suffix. -/
theorem failure_message_localized (store : Store) (uid chatId : Nat)
    (text payload : Option (List Char)) (env : FlowEnv) (reason : List Char)
    (h1 : generate_image_url (pyStrip (text.getD [])) env.gen = .error reason)
    (h2 : generate_image_url ((decodePayload (payload.getD [])).2) env.gen
        = .error reason) :
    ((handle_script store uid chatId text env).2.filter isSendEv
       = [Event.sendText chatId
            (error_message (detect_language (some (pyStrip (text.getD [])))) reason)])
    ∧ ((on_regen_button store uid chatId payload env).2.filter isSendEv
       = [Event.sendText chatId
            (error_message (detect_language
              (some ((decodePayload (payload.getD [])).2))) reason)])
    ∧ (∀ lang r, "❌".data <+: error_message lang r)
    ∧ (∀ r, error_message "bangla".data r
         = "❌ একটি ত্রুটি ঘটেছে!\nকারণ: ".data ++ r)
    ∧ (∀ lang r, lang ≠ "bangla".data
         → error_message lang r = "❌ An error occurred!\nReason: ".data ++ r) := by
  refine ⟨?_, ?_, ?_, ?_, ?_⟩
  · simp only [handle_script, h1, List.filter_append]
    rw [retire_filter_send]
    simp [isSendEv]
  · simp only [on_regen_button, h2, List.filter_cons, List.filter_append]
    rw [retire_filter_send]
    simp [isSendEv]
  · intro lang r
    unfold error_message
    split
    · exact ⟨_, rfl⟩
    · exact ⟨_, rfl⟩
  · intro r
    unfold error_message
    rw [if_pos rfl]
  · intro lang r h
    unfold error_message
    rw [if_neg h]

theorem failure_message_localized_witness :
    (generate_image_url (pyStrip ((some "লাল একটি বাইসাইকেল".data).getD []))
        (GenEnv.mk "t".data
          (fun _ => ProviderOutcome.raises "rate limit exceeded".data)
          (Except.error []))
      = .error "rate limit exceeded".data)
    ∧ ((handle_script (fun _ => none) 1 7 (some "লাল একটি বাইসাইকেল".data)
          ⟨⟨"t".data, fun _ => ProviderOutcome.raises "rate limit exceeded".data,
            Except.error []⟩, true, 3, 4, Except.error []⟩).2.filter isSendEv
        = [Event.sendText 7
            ("❌ একটি ত্রুটি ঘটেছে!\nকারণ: ".data ++ "rate limit exceeded".data)]) := by
  have h := failure_message_localized (fun _ => none) 1 7
    (some "লাল একটি বাইসাইকেল".data) (some "regen|x".data)
    ⟨⟨"t".data, fun _ => ProviderOutcome.raises "rate limit exceeded".data,
      Except.error []⟩, true, 3, 4, Except.error []⟩
    "rate limit exceeded".data rfl rfl
  refine ⟨rfl, ?_⟩
  rw [h.1]
  decide
